import Mathlib

/-!
Verification of the Orb audio pipeline (the `GdmLiveAudio` component and its
audio utilities) against the natural-language specification.  The relevant
parts of the TypeScript source are shallowly embedded as Lean definitions:
the playback scheduler state (the `nextStartTime` cursor plus the set of
in-flight buffer source handles) becomes an explicit state record threaded
through the message handlers, and the capture chain (recording flag,
audio-graph nodes, media stream) likewise.  Output-clock times and buffer
durations are modelled as rationals.
-/

/-- State of the playback scheduler inside `GdmLiveAudio`: `nextStartTime` is
the playback cursor (the output-clock time at which the next arriving buffer
will start) and `sources` is the in-flight set `this.sources` of
`AudioBufferSourceNode` handles, modelled as a list of numeric handles (each
scheduled source is a fresh object, so handles are fresh ids). -/
structure SchedState where
  nextStartTime : ℚ
  sources : List ℕ
deriving DecidableEq

/-- The audio branch of the `onmessage` callback (`index.tsx`, the
`if (audio)` block).  `clockNow` is `outputAudioContext.currentTime` sampled
at arrival, `decoded` is `some d` when `decodeAudioData` yields a buffer of
duration `d` and `none` when the decode throws, `handle` is the fresh source
node.  The embedding mirrors the source order: the cursor is first advanced
to `max(nextStartTime, currentTime)`, then the chunk is decoded (a failure
aborts the handler there), the source is started at the cursor, the cursor is
advanced by the buffer's duration and the source is added to the set.
Returns the new state and the scheduled start time (`none` when the chunk was
dropped by a decode failure). -/
def onAudioMessage (st : SchedState) (clockNow : ℚ) (decoded : Option ℚ)
    (handle : ℕ) : SchedState × Option ℚ :=
  let cursor := max st.nextStartTime clockNow
  match decoded with
  | none => ({ st with nextStartTime := cursor }, none)
  | some dur =>
      ({ nextStartTime := cursor + dur, sources := st.sources ++ [handle] },
       some cursor)

/-- The `ended` event listener registered on each source: removes the
finished source from the in-flight set. -/
def onEnded (st : SchedState) (handle : ℕ) : SchedState :=
  { st with sources := st.sources.filter (fun h => h != handle) }

/-- The `interrupted` branch of the `onmessage` callback: for every source in
the set, `source.stop()` is commanded and the source is deleted; finally the
cursor is reset to 0.  The second component lists the handles on which a stop
was explicitly commanded. -/
def onInterrupted (st : SchedState) : SchedState × List ℕ :=
  ({ nextStartTime := 0, sources := [] }, st.sources)

/-- `initAudio` from the source: sets the cursor to the output clock's
current time (called once at component construction / session init). -/
def initAudio (st : SchedState) (clockNow : ℚ) : SchedState :=
  { st with nextStartTime := clockNow }

/-- Run a sequence of arriving audio chunks through the audio branch.  Each
arrival is a pair `(clockNow, duration)`; handles are numbered from `k`.
Returns the final state together with a log of one entry per chunk:
`(scheduledStart, duration, cursorAfterScheduling)`. -/
def runChunks : SchedState → ℕ → List (ℚ × ℚ) → SchedState × List (ℚ × ℚ × ℚ)
  | st, _, [] => (st, [])
  | st, k, (c, d) :: rest =>
      let step := onAudioMessage st c (some d) k
      let r := runChunks step.1 (k + 1) rest
      (r.1, (step.2.getD 0, d, step.1.nextStartTime) :: r.2)

/-- The contiguous start-time sequence `t0, t0+d1, t0+d1+d2, ...` promised by
the spec for buffer durations `d1, d2, ...`. -/
def contiguousStarts : ℚ → List ℚ → List ℚ
  | _, [] => []
  | t, d :: ds => t :: contiguousStarts (t + d) ds

/-- The hypothesis of the contiguity claim: the output clock never overtakes
the cursor — at each arrival the clock reading is at most the cursor value at
that point (the cursor having been advanced by each scheduled duration). -/
def noOvertake : ℚ → List (ℚ × ℚ) → Prop
  | _, [] => True
  | cur, (c, d) :: rest => c ≤ cur ∧ noOvertake (cur + d) rest

lemma runChunks_contiguous (arrs : List (ℚ × ℚ)) :
    ∀ (st : SchedState) (k : ℕ), noOvertake st.nextStartTime arrs →
      (runChunks st k arrs).2.map (fun e => e.1)
          = contiguousStarts st.nextStartTime (arrs.map Prod.snd)
        ∧ (∀ e ∈ (runChunks st k arrs).2, e.2.2 = e.1 + e.2.1)
        ∧ (runChunks st k arrs).1.nextStartTime
          = st.nextStartTime + (arrs.map Prod.snd).sum := by
  induction arrs with
  | nil => intro st k _; simp [runChunks, contiguousStarts]
  | cons a rest ih =>
      obtain ⟨c, d⟩ := a
      intro st k h
      obtain ⟨h1, h2⟩ := h
      have hmax : max st.nextStartTime c = st.nextStartTime := max_eq_left h1
      have hstep : onAudioMessage st c (some d) k
          = ({ nextStartTime := st.nextStartTime + d,
               sources := st.sources ++ [k] }, some st.nextStartTime) := by
        simp [onAudioMessage, hmax]
      have ih' := ih { nextStartTime := st.nextStartTime + d,
                       sources := st.sources ++ [k] } (k + 1) h2
      refine ⟨?_, ?_, ?_⟩
      · simp only [runChunks, hstep, List.map_cons, contiguousStarts]
        exact congrArg _ ih'.1
      · intro e he
        simp only [runChunks, hstep, List.mem_cons] at he
        rcases he with rfl | he
        · rfl
        · exact ih'.2.1 e he
      · simp only [runChunks, hstep, List.map_cons, List.sum_cons]
        rw [ih'.2.2]
        ring

/-- Claim C1: when the output clock never overtakes the cursor between
arrivals, chunks of durations `d1, d2, ...` are scheduled back to back at
`t0, t0+d1, t0+d1+d2, ...` with `t0 ≥` the output clock at the first arrival,
independent of inter-arrival wall-clock spacing, and after each scheduling
the cursor equals the scheduled start plus that buffer's duration. -/
theorem C1_scheduling_contiguity (st : SchedState) (c1 d1 : ℚ)
    (rest : List (ℚ × ℚ))
    (h : noOvertake (max st.nextStartTime c1 + d1) rest) :
    c1 ≤ max st.nextStartTime c1
    ∧ (runChunks st 0 ((c1, d1) :: rest)).2.map (fun e => e.1)
        = contiguousStarts (max st.nextStartTime c1) (d1 :: rest.map Prod.snd)
    ∧ ∀ e ∈ (runChunks st 0 ((c1, d1) :: rest)).2, e.2.2 = e.1 + e.2.1 := by
  have hstep : onAudioMessage st c1 (some d1) 0
      = ({ nextStartTime := max st.nextStartTime c1 + d1,
           sources := st.sources ++ [0] }, some (max st.nextStartTime c1)) := by
    simp [onAudioMessage]
  have haux := runChunks_contiguous rest
      { nextStartTime := max st.nextStartTime c1 + d1,
        sources := st.sources ++ [0] } 1 h
  refine ⟨le_max_right _ _, ?_, ?_⟩
  · simp only [runChunks, hstep, List.map_cons, contiguousStarts]
    exact congrArg _ haux.1
  · intro e he
    simp only [runChunks, hstep, List.mem_cons] at he
    rcases he with rfl | he
    · rfl
    · exact haux.2.1 e he

/-- Witness for C1: the spec's concrete scenario — two buffers of duration
1/2, the first arriving at clock 0 with cursor 0, the second at clock 1/10;
starts are 0 and 1/2, the cursor ends at 1. -/
theorem C1_scheduling_contiguity_witness :
    noOvertake (max (0:ℚ) 0 + 1/2) [(1/10, 1/2)]
    ∧ ((0:ℚ) ≤ max (0:ℚ) 0
       ∧ (runChunks ⟨0, []⟩ 0 ((0, 1/2) :: [(1/10, 1/2)])).2.map (fun e => e.1)
           = contiguousStarts (max (0:ℚ) 0) (1/2 :: [(1/10, 1/2)].map Prod.snd)
       ∧ ∀ e ∈ (runChunks ⟨0, []⟩ 0 ((0, 1/2) :: [(1/10, 1/2)])).2,
           e.2.2 = e.1 + e.2.1) := by
  constructor
  · norm_num [noOvertake]
  · exact C1_scheduling_contiguity ⟨0, []⟩ 0 (1/2) [(1/10, 1/2)]
      (by norm_num [noOvertake])

/-- Claim C2: the interrupted branch commands an explicit stop on exactly the
handles currently in flight, leaves the in-flight set empty and resets the
cursor to 0 (with an empty set, nothing is stopped and the cursor still
resets). -/
theorem C2_interrupt_flushes (st : SchedState) :
    (onInterrupted st).1.sources = []
    ∧ (onInterrupted st).1.nextStartTime = 0
    ∧ (onInterrupted st).2 = st.sources := by
  exact ⟨rfl, rfl, rfl⟩

/-- Claim C3 fails as stated: interrupting when the output clock reads 5
(cursor 5, in-flight set empty) sets the cursor to the sentinel 0, which is
neither the clock's current time nor ≥ it. -/
theorem C3_cursor_invariant_cex :
    (onInterrupted ⟨5, []⟩).1.nextStartTime = 0
    ∧ ¬ ((5:ℚ) ≤ (onInterrupted ⟨5, []⟩).1.nextStartTime)
    ∧ (onInterrupted ⟨5, []⟩).1.nextStartTime ≠ 5 := by
  refine ⟨rfl, ?_, ?_⟩ <;> norm_num [onInterrupted]

/-- Claim C3 (amended): after each scheduling operation the cursor is ≥ the
output clock at that operation and equals the scheduled start plus the
buffer's duration; session initialisation (`initAudio`) sets it to the
clock's current time; interruption however sets it to the sentinel 0 — not
the clock's current time — and the cursor is re-anchored to the clock by the
`max` at the next arrival. -/
theorem C3_cursor_invariant (st : SchedState) (c d : ℚ) (k : ℕ)
    (hd : 0 ≤ d) :
    c ≤ (onAudioMessage st c (some d) k).1.nextStartTime
    ∧ (onAudioMessage st c (some d) k).1.nextStartTime
        = (onAudioMessage st c (some d) k).2.getD 0 + d
    ∧ (initAudio st c).nextStartTime = c
    ∧ (onInterrupted st).1.nextStartTime = 0 := by
  refine ⟨?_, rfl, rfl, rfl⟩
  show c ≤ max st.nextStartTime c + d
  calc c ≤ max st.nextStartTime c := le_max_right _ _
    _ ≤ max st.nextStartTime c + d := le_add_of_nonneg_right hd

/-- Witness for the amended C3 at cursor 0, clock 1, duration 2. -/
theorem C3_cursor_invariant_witness :
    (0:ℚ) ≤ 2
    ∧ ((1:ℚ) ≤ (onAudioMessage ⟨0, []⟩ 1 (some 2) 0).1.nextStartTime
       ∧ (onAudioMessage ⟨0, []⟩ 1 (some 2) 0).1.nextStartTime
           = (onAudioMessage ⟨0, []⟩ 1 (some 2) 0).2.getD 0 + 2
       ∧ (initAudio ⟨0, []⟩ 1).nextStartTime = 1
       ∧ (onInterrupted ⟨0, []⟩).1.nextStartTime = 0) :=
  ⟨by norm_num, C3_cursor_invariant ⟨0, []⟩ 1 2 0 (by norm_num)⟩

/-- Claim C4 fails as stated: a chunk whose decode fails arriving at clock 5
with cursor 0 leaves the in-flight set untouched but advances the cursor to
5, so the scheduler state is not exactly what it was before the arrival (the
code advances the cursor before decoding). -/
theorem C4_decode_failure_cex :
    (onAudioMessage ⟨0, []⟩ 5 none 0).1.nextStartTime = 5
    ∧ (onAudioMessage ⟨0, []⟩ 5 none 0).1 ≠ (⟨0, []⟩ : SchedState) := by
  constructor
  · show max (0:ℚ) 5 = 5
    norm_num
  · intro hcontra
    have h5 : (onAudioMessage ⟨0, []⟩ 5 none 0).1.nextStartTime = 0 := by
      rw [hcontra]
    have h5' : max (0:ℚ) 5 = 0 := h5
    norm_num at h5'

/-- Claim C4 (amended): on a decode failure the chunk is dropped — nothing is
scheduled and the in-flight set is unchanged — and the cursor becomes
`max(oldCursor, clockNow)`, which leaves the whole state exactly unchanged
precisely when the cursor was already ≥ the output clock at arrival. -/
theorem C4_decode_failure_state (st : SchedState) (c : ℚ) (k : ℕ) :
    (onAudioMessage st c none k).1.sources = st.sources
    ∧ (onAudioMessage st c none k).2 = none
    ∧ (onAudioMessage st c none k).1.nextStartTime = max st.nextStartTime c
    ∧ (c ≤ st.nextStartTime → (onAudioMessage st c none k).1 = st) := by
  refine ⟨rfl, rfl, rfl, fun h => ?_⟩
  show ({ st with nextStartTime := max st.nextStartTime c } : SchedState) = st
  rw [max_eq_left h]

/-- Witness for the amended C4 at cursor 7, clock 3 (cursor ahead of clock:
state exactly preserved). -/
theorem C4_decode_failure_state_witness :
    ((3:ℚ) ≤ 7)
    ∧ ((onAudioMessage ⟨7, [4]⟩ 3 none 9).1.sources = [4]
       ∧ (onAudioMessage ⟨7, [4]⟩ 3 none 9).2 = none
       ∧ (onAudioMessage ⟨7, [4]⟩ 3 none 9).1.nextStartTime = max 7 3
       ∧ ((3:ℚ) ≤ 7 → (onAudioMessage ⟨7, [4]⟩ 3 none 9).1 = ⟨7, [4]⟩)) :=
  ⟨by norm_num, C4_decode_failure_state ⟨7, [4]⟩ 3 9⟩

/-- Claim C5: a chunk arriving while the cursor is strictly behind the output
clock is scheduled to start exactly at the current clock time, not at the
stale cursor value. -/
theorem C5_self_healing_gap (st : SchedState) (c d : ℚ) (k : ℕ)
    (h : st.nextStartTime < c) :
    (onAudioMessage st c (some d) k).2 = some c := by
  show some (max st.nextStartTime c) = some c
  rw [max_eq_right h.le]

/-- Witness for C5: cursor 1 far behind clock 10; the buffer starts at 10. -/
theorem C5_self_healing_gap_witness :
    ((1:ℚ) < 10) ∧ (onAudioMessage ⟨1, []⟩ 10 (some 2) 0).2 = some 10 :=
  ⟨by norm_num, C5_self_healing_gap ⟨1, []⟩ 10 2 0 (by norm_num)⟩

/-- State of the capture chain inside `GdmLiveAudio`: the `isRecording`
liveness flag, the audio-graph nodes `scriptProcessorNode` and `sourceNode`
and the `mediaStream` (modelled as optional numeric handles, `none` = null),
the `status` message, the log `sentBlocks` of blocks handed to
`sendRealtimeInput`, and the log `stoppedStreams` of media streams whose
tracks were stopped and released.  `inputAudioContext` records whether the
input audio context is present; the class initialises it in a field
initialiser and never clears it, so it is `true` in every reachable state. -/
structure CaptureState where
  isRecording : Bool
  scriptProcessorNode : Option ℕ
  sourceNode : Option ℕ
  mediaStream : Option ℕ
  inputAudioContext : Bool
  status : String
  sentBlocks : List ℕ
  stoppedStreams : List ℕ
deriving DecidableEq

/-- The `onaudioprocess` hardware block callback: if the liveness flag is
cleared the block is discarded (`if (!this.isRecording) return`); otherwise
the block is converted and handed to `sendRealtimeInput`. -/
def onaudioprocess (st : CaptureState) (blockId : ℕ) : CaptureState :=
  if st.isRecording then { st with sentBlocks := st.sentBlocks ++ [blockId] }
  else st

/-- `stopRecording` from the source.  The early return fires only when the
recording flag is clear, the media stream is null and the input audio context
is null (the latter never holds in reachable states, so the body always
runs): the flag is cleared, the processor and source nodes are disconnected
and nulled, the media stream's tracks are stopped and the stream released,
and the status message is updated. -/
def stopRecording (st : CaptureState) : CaptureState :=
  if !st.isRecording && st.mediaStream == none && !st.inputAudioContext then st
  else
    match st.mediaStream with
    | some s =>
        { st with
          isRecording := false
          scriptProcessorNode := none
          sourceNode := none
          mediaStream := none
          stoppedStreams := st.stoppedStreams ++ [s]
          status := "Recording stopped. Click Start to begin again." }
    | none =>
        { st with
          isRecording := false
          scriptProcessorNode := none
          sourceNode := none
          status := "Recording stopped. Click Start to begin again." }

/-- `startRecording` from the source.  A call while already recording returns
immediately.  Otherwise the microphone is requested: `gum` is `some s` when
`getUserMedia` resolves with stream `s` and `none` when it rejects
(permission denied / no device); the stream and the media-stream source node
are then wired, and `wireOk` tells whether the remaining audio-graph wiring
(`createScriptProcessor` and the connects) succeeds.  Any failure lands in
the catch block, which records the error status and invokes
`stopRecording`. -/
def startRecording (st : CaptureState) (gum : Option ℕ) (wireOk : Bool)
    (srcId procId : ℕ) (errText : String) : CaptureState :=
  if st.isRecording then st
  else
    match gum with
    | none => stopRecording { st with status := "Error: " ++ errText }
    | some s =>
        if wireOk then
          { st with
            mediaStream := some s
            sourceNode := some srcId
            scriptProcessorNode := some procId
            isRecording := true
            status := "Recording..." }
        else
          stopRecording
            { st with
              mediaStream := some s
              sourceNode := some srcId
              status := "Error: " ++ errText }

lemma stopRecording_clears (st : CaptureState)
    (hctx : st.inputAudioContext = true) :
    (stopRecording st).isRecording = false
    ∧ (stopRecording st).scriptProcessorNode = none
    ∧ (stopRecording st).sourceNode = none
    ∧ (stopRecording st).mediaStream = none
    ∧ ∀ s, st.mediaStream = some s →
        s ∈ (stopRecording st).stoppedStreams := by
  unfold stopRecording
  rw [if_neg (by simp [hctx])]
  cases hms : st.mediaStream <;> simp [hms]

/-- Claim C8: `stopRecording` clears the liveness flag, and any hardware
block callback firing while the flag is cleared — in particular between the
start of a stop and the completion of disconnection — discards the block:
the state is unchanged and nothing is handed to `sendRealtimeInput`. -/
theorem C8_no_send_after_stop (st st2 : CaptureState) (blockId : ℕ)
    (h : st2.isRecording = false) :
    (stopRecording st).isRecording = false
    ∧ onaudioprocess st2 blockId = st2
    ∧ (onaudioprocess st2 blockId).sentBlocks = st2.sentBlocks := by
  refine ⟨?_, ?_, ?_⟩
  · unfold stopRecording
    split
    · next hguard =>
        simp only [Bool.and_eq_true, Bool.not_eq_true'] at hguard
        exact hguard.1.1
    · split <;> rfl
  · simp [onaudioprocess, h]
  · simp [onaudioprocess, h]

/-- Witness for C8: a mid-stop state (flag cleared, nodes still attached)
receiving one more block sends nothing. -/
theorem C8_no_send_after_stop_witness :
    ((⟨false, some 1, some 2, some 3, true, "s", [], []⟩ :
        CaptureState).isRecording = false)
    ∧ ((stopRecording ⟨true, some 1, some 2, some 3, true, "s", [], []⟩
          ).isRecording = false
       ∧ onaudioprocess ⟨false, some 1, some 2, some 3, true, "s", [], []⟩ 7
           = ⟨false, some 1, some 2, some 3, true, "s", [], []⟩
       ∧ (onaudioprocess ⟨false, some 1, some 2, some 3, true, "s", [], []⟩ 7
            ).sentBlocks
           = (⟨false, some 1, some 2, some 3, true, "s", [], []⟩ :
               CaptureState).sentBlocks) :=
  ⟨rfl, C8_no_send_after_stop
      ⟨true, some 1, some 2, some 3, true, "s", [], []⟩
      ⟨false, some 1, some 2, some 3, true, "s", [], []⟩ 7 rfl⟩

/-- Claim C9: `stopRecording` is idempotent — on an already-stopped state
(flag clear, nodes null, stream null) it is a no-op on the capture state
(recording flag, processor node, source node, media stream), and stopping
twice always equals stopping once. -/
theorem C9_stop_idempotent (st st2 : CaptureState)
    (h : st.isRecording = false ∧ st.scriptProcessorNode = none
         ∧ st.sourceNode = none ∧ st.mediaStream = none) :
    ((stopRecording st).isRecording = st.isRecording
     ∧ (stopRecording st).scriptProcessorNode = st.scriptProcessorNode
     ∧ (stopRecording st).sourceNode = st.sourceNode
     ∧ (stopRecording st).mediaStream = st.mediaStream)
    ∧ stopRecording (stopRecording st2) = stopRecording st2 := by
  obtain ⟨h1, h2, h3, h4⟩ := h
  constructor
  · unfold stopRecording
    split
    · exact ⟨rfl, rfl, rfl, rfl⟩
    · simp [h1, h2, h3, h4]
  · obtain ⟨rec, spn, srn, ms, ctx, stat, sb, ss⟩ := st2
    cases rec <;> cases ctx <;> cases ms <;> simp [stopRecording]

/-- Witness for C9: stopping an already-stopped state changes none of the
four capture-state fields, and a double stop equals a single stop. -/
theorem C9_stop_idempotent_witness :
    ((⟨false, none, none, none, true, "s", [], []⟩ :
        CaptureState).isRecording = false
     ∧ (⟨false, none, none, none, true, "s", [], []⟩ :
        CaptureState).scriptProcessorNode = none
     ∧ (⟨false, none, none, none, true, "s", [], []⟩ :
        CaptureState).sourceNode = none
     ∧ (⟨false, none, none, none, true, "s", [], []⟩ :
        CaptureState).mediaStream = none)
    ∧ (((stopRecording ⟨false, none, none, none, true, "s", [], []⟩
          ).isRecording
          = (⟨false, none, none, none, true, "s", [], []⟩ :
              CaptureState).isRecording
        ∧ (stopRecording ⟨false, none, none, none, true, "s", [], []⟩
            ).scriptProcessorNode
          = (⟨false, none, none, none, true, "s", [], []⟩ :
              CaptureState).scriptProcessorNode
        ∧ (stopRecording ⟨false, none, none, none, true, "s", [], []⟩
            ).sourceNode
          = (⟨false, none, none, none, true, "s", [], []⟩ :
              CaptureState).sourceNode
        ∧ (stopRecording ⟨false, none, none, none, true, "s", [], []⟩
            ).mediaStream
          = (⟨false, none, none, none, true, "s", [], []⟩ :
              CaptureState).mediaStream)
       ∧ stopRecording
           (stopRecording ⟨true, some 1, some 2, some 3, true, "s", [], []⟩)
         = stopRecording ⟨true, some 1, some 2, some 3, true, "s", [], []⟩) :=
  ⟨⟨rfl, rfl, rfl, rfl⟩,
   C9_stop_idempotent ⟨false, none, none, none, true, "s", [], []⟩
     ⟨true, some 1, some 2, some 3, true, "s", [], []⟩ ⟨rfl, rfl, rfl, rfl⟩⟩

/-- Claim C10: a failed `startRecording` (microphone request rejected or
audio-graph wiring failure) lands in the catch block, which invokes
`stopRecording`: afterwards the component is not recording, both nodes are
cleared, any acquired media stream has had its tracks stopped and is
released, and a subsequent successful `startRecording` succeeds; a
`startRecording` while already recording is itself a no-op. -/
theorem C10_start_failure_cleanup (st : CaptureState) (gum : Option ℕ)
    (wireOk : Bool) (srcId procId : ℕ) (e : String)
    (hrec : st.isRecording = false) (hctx : st.inputAudioContext = true)
    (hfail : gum = none ∨ wireOk = false) :
    (startRecording st gum wireOk srcId procId e).isRecording = false
    ∧ (startRecording st gum wireOk srcId procId e).scriptProcessorNode = none
    ∧ (startRecording st gum wireOk srcId procId e).sourceNode = none
    ∧ (startRecording st gum wireOk srcId procId e).mediaStream = none
    ∧ (∀ s, gum = some s →
        s ∈ (startRecording st gum wireOk srcId procId e).stoppedStreams)
    ∧ (∀ st' : CaptureState, st'.isRecording = true →
        startRecording st' gum wireOk srcId procId e = st')
    ∧ (∀ s2, (startRecording (startRecording st gum wireOk srcId procId e)
        (some s2) true srcId procId e).isRecording = true) := by
  have hnoop : ∀ st' : CaptureState, st'.isRecording = true →
      startRecording st' gum wireOk srcId procId e = st' := by
    intro st' h'
    unfold startRecording
    rw [if_pos h']
  have hpost : (startRecording st gum wireOk srcId procId e).isRecording = false
      ∧ (startRecording st gum wireOk srcId procId e).scriptProcessorNode = none
      ∧ (startRecording st gum wireOk srcId procId e).sourceNode = none
      ∧ (startRecording st gum wireOk srcId procId e).mediaStream = none
      ∧ (∀ s, gum = some s →
          s ∈ (startRecording st gum wireOk srcId procId e).stoppedStreams) := by
    rcases hfail with rfl | rfl
    · have h0 := stopRecording_clears
        { st with status := "Error: " ++ e } hctx
      unfold startRecording
      rw [if_neg (by simp [hrec])]
      exact ⟨h0.1, h0.2.1, h0.2.2.1, h0.2.2.2.1, by simp⟩
    · cases gum with
      | none =>
          have h0 := stopRecording_clears
            { st with status := "Error: " ++ e } hctx
          unfold startRecording
          rw [if_neg (by simp [hrec])]
          exact ⟨h0.1, h0.2.1, h0.2.2.1, h0.2.2.2.1, by simp⟩
      | some s =>
          have h0 := stopRecording_clears
            { st with
              mediaStream := some s
              sourceNode := some srcId
              status := "Error: " ++ e } hctx
          unfold startRecording
          rw [if_neg (by simp [hrec])]
          refine ⟨h0.1, h0.2.1, h0.2.2.1, h0.2.2.2.1, ?_⟩
          intro s' hs'
          obtain rfl := Option.some.inj hs'
          exact h0.2.2.2.2 _ rfl
  refine ⟨hpost.1, hpost.2.1, hpost.2.2.1, hpost.2.2.2.1, hpost.2.2.2.2,
    hnoop, ?_⟩
  intro s2
  have hstart : ∀ st' : CaptureState, st'.isRecording = false →
      (startRecording st' (some s2) true srcId procId e).isRecording
        = true := by
    intro st' h'
    unfold startRecording
    rw [if_neg (by simp [h'])]
    rfl
  exact hstart _ hpost.1

/-- Witness for C10: wiring failure after stream 3 was acquired, on a
non-recording component. -/
theorem C10_start_failure_cleanup_witness :
    ((⟨false, none, none, none, true, "s", [], []⟩ :
        CaptureState).isRecording = false)
    ∧ ((⟨false, none, none, none, true, "s", [], []⟩ :
        CaptureState).inputAudioContext = true)
    ∧ ((some 3 = (none : Option ℕ)) ∨ (false = false))
    ∧ ((startRecording ⟨false, none, none, none, true, "s", [], []⟩
          (some 3) false 1 2 "boom").isRecording = false
       ∧ (startRecording ⟨false, none, none, none, true, "s", [], []⟩
          (some 3) false 1 2 "boom").scriptProcessorNode = none
       ∧ (startRecording ⟨false, none, none, none, true, "s", [], []⟩
          (some 3) false 1 2 "boom").sourceNode = none
       ∧ (startRecording ⟨false, none, none, none, true, "s", [], []⟩
          (some 3) false 1 2 "boom").mediaStream = none
       ∧ (∀ s, (some 3 : Option ℕ) = some s →
           s ∈ (startRecording ⟨false, none, none, none, true, "s", [], []⟩
             (some 3) false 1 2 "boom").stoppedStreams)
       ∧ (∀ st' : CaptureState, st'.isRecording = true →
           startRecording st' (some 3) false 1 2 "boom" = st')
       ∧ (∀ s2, (startRecording
             (startRecording ⟨false, none, none, none, true, "s", [], []⟩
               (some 3) false 1 2 "boom") (some s2) true 1 2 "boom"
             ).isRecording = true)) :=
  ⟨rfl, rfl, Or.inr rfl,
   C10_start_failure_cleanup ⟨false, none, none, none, true, "s", [], []⟩
     (some 3) false 1 2 "boom" rfl rfl (Or.inr rfl)⟩

/-- Modelled from the spec: the PCM encoder (`createBlob` /
`floatToPcmChunk` in `utils.ts`) is absent from the sources — only its tests
and callers are present.  Per the spec, each normalized sample is scaled by
32768, rounded to the nearest integer and NOT clamped; the value is packed
as a little-endian signed 16-bit word, an out-of-range value being allowed
to overflow the 16-bit range (two's-complement wrap modulo 2^16).  Samples
are rationals; the result is the byte sequence of the chunk. -/
def floatToPcmChunk : List ℚ → List ℕ
  | [] => []
  | s :: rest =>
      ((round (s * 32768) % 65536).toNat % 256)
        :: ((round (s * 32768) % 65536).toNat / 256)
        :: floatToPcmChunk rest

/-- Reinterpret a byte sequence as little-endian signed 16-bit words (two's
complement): each pair `lo, hi` yields `lo + 256*hi` interpreted in
`[-32768, 32767]`. -/
def bytesToInt16LE : List ℕ → List ℤ
  | lo :: hi :: rest =>
      (if lo + 256 * hi < 32768 then (lo + 256 * hi : ℤ)
       else (lo + 256 * hi : ℤ) - 65536) :: bytesToInt16LE rest
  | _ => []

lemma round_one_scaled : round ((1:ℚ) * 32768) = 32768 := by
  norm_num [round_eq]

lemma round_neg_one_scaled : round ((-1:ℚ) * 32768) = -32768 := by
  norm_num [round_eq]

lemma floatToPcmChunk_extremes : floatToPcmChunk [1, -1] = [0, 128, 0, 128] := by
  simp only [floatToPcmChunk, round_one_scaled, round_neg_one_scaled]
  decide

/-- Claim C6 fails as stated: a signed 16-bit word can never equal 32768.
Encoding `[1.0, -1.0]` gives bytes `[0, 128, 0, 128]` (the scaled value
32768 wraps to -32768 on packing), so reading them back as signed 16-bit
little-endian yields `[-32768, -32768]`, not `[32768, -32768]`. -/
theorem C6_unclamped_encode_cex :
    bytesToInt16LE (floatToPcmChunk [1, -1]) ≠ [32768, -32768] := by
  rw [floatToPcmChunk_extremes]
  decide

/-- Claim C6 (amended): the encoder scales by 32768 without clamping, so the
scaled value of `1.0` overflows the 16-bit range and wraps: encoding
`[1.0, -1.0]` and reinterpreting the bytes as signed 16-bit little-endian
words yields exactly `[-32768, -32768]`. -/
theorem C6_unclamped_encode :
    bytesToInt16LE (floatToPcmChunk [1, -1]) = [-32768, -32768] := by
  rw [floatToPcmChunk_extremes]
  decide

/-- Modelled from the spec: the transport text encoding in `utils.ts`
(`encode` / `bytesToText` and `decode` / `textToBytes`) is absent from the
sources; per the spec it is standard base64.  This is the standard sextet
alphabet. -/
def b64Chars : List Char :=
  ['A', 'B', 'C', 'D', 'E', 'F', 'G', 'H', 'I', 'J', 'K', 'L', 'M',
   'N', 'O', 'P', 'Q', 'R', 'S', 'T', 'U', 'V', 'W', 'X', 'Y', 'Z',
   'a', 'b', 'c', 'd', 'e', 'f', 'g', 'h', 'i', 'j', 'k', 'l', 'm',
   'n', 'o', 'p', 'q', 'r', 's', 't', 'u', 'v', 'w', 'x', 'y', 'z',
   '0', '1', '2', '3', '4', '5', '6', '7', '8', '9', '+', '/']

/-- Character for a sextet value (defined for values below 64). -/
def b64Char (n : ℕ) : Char := b64Chars.getD n 'A'

/-- Sextet value of an alphabet character. -/
def b64Index (c : Char) : ℕ := b64Chars.indexOf c

lemma b64_inv : ∀ n : ℕ, n < 64 → b64Index (b64Char n) = n := by decide

lemma b64_ne : ∀ n : ℕ, n < 64 → b64Char n ≠ '=' := by decide

/-- Modelled from the spec: standard base64 encoding of a byte sequence —
groups of three bytes become four sextet characters; a trailing group of one
or two bytes is padded with `=`. -/
def encodeB64 : List ℕ → List Char
  | [] => []
  | [a] => [b64Char (a / 4), b64Char (a % 4 * 16), '=', '=']
  | [a, b] => [b64Char (a / 4), b64Char (a % 4 * 16 + b / 16),
               b64Char (b % 16 * 4), '=']
  | a :: b :: c :: rest =>
      b64Char (a / 4) :: b64Char (a % 4 * 16 + b / 16)
        :: b64Char (b % 16 * 4 + c / 64) :: b64Char (c % 64)
        :: encodeB64 rest

/-- Modelled from the spec: standard base64 decoding, the exact inverse of
`encodeB64` — each four-character group yields three bytes, or fewer at the
end according to the `=` padding. -/
def decodeB64 : List Char → List ℕ
  | c1 :: c2 :: c3 :: c4 :: rest =>
      if c3 = '=' then [b64Index c1 * 4 + b64Index c2 / 16]
      else if c4 = '=' then
        [b64Index c1 * 4 + b64Index c2 / 16,
         b64Index c2 % 16 * 16 + b64Index c3 / 4]
      else
        (b64Index c1 * 4 + b64Index c2 / 16)
          :: (b64Index c2 % 16 * 16 + b64Index c3 / 4)
          :: (b64Index c3 % 4 * 64 + b64Index c4)
          :: decodeB64 rest
  | _ => []

/-- `bytesToText` of the spec (`encode` in `utils.ts`): base64 text of a
byte sequence. -/
def bytesToText (bs : List ℕ) : String := String.mk (encodeB64 bs)

/-- `textToBytes` of the spec (`decode` in `utils.ts`): bytes of a base64
text. -/
def textToBytes (s : String) : List ℕ := decodeB64 s.data

lemma decode_encode : ∀ bs : List ℕ, (∀ x ∈ bs, x < 256) →
    decodeB64 (encodeB64 bs) = bs
  | [], _ => rfl
  | [a], h => by
      have ha : a < 256 := h a (by simp)
      simp only [encodeB64]
      rw [decodeB64]
      rw [if_pos rfl]
      rw [b64_inv (a / 4) (by omega), b64_inv (a % 4 * 16) (by omega)]
      simp only [List.cons.injEq]
      exact ⟨by omega, trivial⟩
  | [a, b], h => by
      have ha : a < 256 := h a (by simp)
      have hb : b < 256 := h b (by simp)
      simp only [encodeB64]
      rw [decodeB64]
      rw [if_neg (b64_ne (b % 16 * 4) (by omega)), if_pos rfl]
      rw [b64_inv (a / 4) (by omega), b64_inv (a % 4 * 16 + b / 16) (by omega),
          b64_inv (b % 16 * 4) (by omega)]
      simp only [List.cons.injEq]
      exact ⟨by omega, by omega, trivial⟩
  | a :: b :: c :: rest, h => by
      have ha : a < 256 := h a (by simp)
      have hb : b < 256 := h b (by simp)
      have hc : c < 256 := h c (by simp)
      have ih := decode_encode rest (fun x hx => h x (by simp [hx]))
      simp only [encodeB64]
      rw [decodeB64]
      rw [if_neg (b64_ne (b % 16 * 4 + c / 64) (by omega)),
          if_neg (b64_ne (c % 64) (by omega))]
      rw [b64_inv (a / 4) (by omega), b64_inv (a % 4 * 16 + b / 16) (by omega),
          b64_inv (b % 16 * 4 + c / 64) (by omega), b64_inv (c % 64) (by omega)]
      rw [ih]
      simp only [List.cons.injEq]
      exact ⟨by omega, by omega, by omega, trivial⟩

/-- Claim C7: decoding is the exact inverse of the base64 encoding — for
every byte sequence `bs`, `textToBytes (bytesToText bs) = bs`, and the empty
sequence encodes to the empty text. -/
theorem C7_base64_roundtrip (bs : List ℕ) (h : ∀ x ∈ bs, x < 256) :
    textToBytes (bytesToText bs) = bs ∧ bytesToText [] = "" :=
  ⟨decode_encode bs h, rfl⟩

/-- Witness for C7: the bytes of "Hello" survive the round trip. -/
theorem C7_base64_roundtrip_witness :
    (∀ x ∈ [72, 101, 108, 108, 111], x < 256)
    ∧ (textToBytes (bytesToText [72, 101, 108, 108, 111])
         = [72, 101, 108, 108, 111]
       ∧ bytesToText [] = "") :=
  ⟨by decide, C7_base64_roundtrip [72, 101, 108, 108, 111] (by decide)⟩
